import Mathlib

/-
Verification development for the logging configuration subsystem
(`config/logging_config.py`).

The Python module is shallowly embedded as pure Lean functions:

* absolute filesystem paths are lists of path components (the empty list
  is the filesystem root `/`); `os.path.dirname` is `List.dropLast`;
* the observable filesystem is a record of three functions: `isFile`
  (for `os.path.isfile`), `entries` (for `os.listdir`) and `dirExists`
  (for `os.path.exists` on directories); `os.makedirs(..., exist_ok=True)`
  is a pure update of `dirExists` that creates the directory and all of
  its ancestors;
* Python exceptions (`ValueError` from `_find_project_root`, `KeyError`
  from `config[...]`) become `Except Err`;
* Python string/number truthiness (`x or y` falls through on `0` / `""`)
  is modelled explicitly;
* `logging` handlers carry a creation serial number `hid` so that the
  identity of freshly created handler objects is observable.
-/

/-- A Python exception relevant to the module: the `ValueError` raised by
`_find_project_root`, or a `KeyError` on a required configuration key. -/
inductive Err where
  | projectRootNotFound : Err
  | missingKey : String → Err
deriving DecidableEq, Repr

/-- A path string as handed around for `log_file_path`: `absolute` records
whether it starts with the path separator (`os.path.isabs`), `comps` its
components.  An absolute path string is never empty, a relative one is empty
iff it has no components. -/
structure CfgPath where
  absolute : Bool
  comps : List String
deriving DecidableEq, Repr

/-- Python truthiness of the underlying path string: only the empty string is
falsy, and an absolute path string always starts with `/`. -/
def CfgPath.truthy (p : CfgPath) : Bool :=
  p.absolute || !p.comps.isEmpty

/-- The observable filesystem state.  Directories are absolute component
lists; `[]` is the filesystem root. -/
structure FS where
  isFile : List String → Bool
  entries : List String → List String
  dirExists : List String → Bool

/-- The sentinel-marker test: `".projectroot" in os.listdir(path)`. -/
def FS.hasMarker (fs : FS) (p : List String) : Bool :=
  (fs.entries p).contains ".projectroot"

/-- Holds when `q` is `p` or an ancestor directory of `p`. -/
def isAncestorOrSelf : List String → List String → Bool
  | [], _ => true
  | _ :: _, [] => false
  | a :: as, b :: bs => a == b && isAncestorOrSelf as bs

/-- Models `os.makedirs(p, exist_ok=True)`: afterwards `p` and all its ancestors
exist; nothing else changes. -/
def mkdirs (fs : FS) (p : List String) : FS :=
  { fs with dirExists := fun q => isAncestorOrSelf q p || fs.dirExists q }

/-- The loop of `_find_project_root`: `while os.path.dirname(path) != path`
(for absolute component lists, `dropLast p = p` iff `p = []`), testing the
sentinel before ascending.  Note the loop guard is tested before the marker,
so the filesystem root itself is never examined. -/
def _find_project_root_loop (marker : List String → Bool) (p : List String) :
    Except Err (List String) :=
  if h : p = [] then .error Err.projectRootNotFound
  else if marker p then .ok p
  else _find_project_root_loop marker p.dropLast
termination_by p.length
decreasing_by
  simp only [List.length_dropLast]
  have : 0 < p.length := List.length_pos.mpr h
  omega

/-- Models `_find_project_root(start_path)`: start from the containing directory when
the start is a file, else from the start itself, then walk upwards. -/
def _find_project_root (fs : FS) (start : List String) :
    Except Err (List String) :=
  let path := if fs.isFile start then start.dropLast else start
  _find_project_root_loop fs.hasMarker path

/-- Models `load_config()`.  `full_config` is the parsed YAML document: a mapping
from section name to section, where the `"logging"` section maps tier names
to tiers and a tier maps keys to values.  `env_var` is `os.environ.get("ENV")`.
The dict-splat merge `{**default_config, **env_config}` means: the merged
value at `k` is the env tier's value when the key is present there, else the
default tier's. -/
def load_config {V : Type} (env_var : Option String)
    (full_config : String → Option (String → Option (String → Option V))) :
    String → Option V :=
  let env := env_var.getD "default"
  let logging_config := (full_config "logging").getD (fun _ => none)
  let env_config := (logging_config env).getD (fun _ => none)
  let default_config := (logging_config "default").getD (fun _ => none)
  fun k =>
    match env_config k with
    | some v => some v
    | none => default_config k

/-- What the adapter's stack walk can see of one frame: the frame's local
binding named `self`, when present — its class name, whether it is a
`CustomLoggerAdapter`, and its Python truthiness. -/
structure SelfObj where
  className : String
  isAdapter : Bool
  truthy : Bool
deriving DecidableEq, Repr

/-- The loop body of `CustomLoggerAdapter.process`: walk the frames, and at
the first frame whose `self` binding is truthy (`if local_self`) and not an
adapter, take its class name; `""` when the walk exhausts the frames. -/
def findClassName : List (Option SelfObj) → String
  | [] => ""
  | some s :: rest =>
      if s.truthy && !s.isAdapter then s.className else findClassName rest
  | none :: rest => findClassName rest

/-- Models `CustomLoggerAdapter.process(msg, kwargs)` restricted to the message:
`stack` is `inspect.stack()` (each element the `self` binding of that frame,
if any); frames `[2:]` are walked and the message is prefixed when a class
name was found. -/
def CustomLoggerAdapter.process (stack : List (Option SelfObj)) (msg : String) :
    String :=
  let class_name := findClassName (stack.drop 2)
  if class_name ≠ "" then class_name ++ ": " ++ msg else msg

/-- Modelled from the spec claim for comparison (refinement check): the class
name of the first frame whose `self` binding EXISTS and is not an adapter,
ignoring truthiness.  This follows the claim words, not the source. -/
def specClassName : List (Option SelfObj) → String
  | [] => ""
  | some s :: rest => if !s.isAdapter then s.className else specClassName rest
  | none :: rest => specClassName rest

/-- Modelled from the spec claim for comparison: `process` as the claim
describes it, built on `specClassName`. -/
def specProcess (stack : List (Option SelfObj)) (msg : String) : String :=
  let class_name := specClassName (stack.drop 2)
  if class_name ≠ "" then class_name ++ ": " ++ msg else msg

/-- The numeric value of `logging.DEBUG`. -/
def DEBUG : Nat := 10

/-- The numeric value of `logging.INFO`. -/
def INFO : Nat := 20

/-- The kind of an attached handler: `logging.StreamHandler(sys.stdout)` or
`logging.FileHandler(path)`. -/
inductive HandlerKind where
  | console : HandlerKind
  | file : CfgPath → HandlerKind
deriving DecidableEq, Repr

/-- An attached handler.  `hid` is a creation serial number making the
identity of distinct handler objects observable. -/
structure Handler where
  hid : Nat
  kind : HandlerKind
  level : Nat
  fmt : String
  datefmt : String
deriving DecidableEq, Repr

/-- Is this handler a console (stream) handler? -/
def Handler.isConsole (h : Handler) : Bool :=
  match h.kind with
  | HandlerKind.console => true
  | HandlerKind.file _ => false

/-- Is this handler a file handler? -/
def Handler.isFileSink (h : Handler) : Bool :=
  match h.kind with
  | HandlerKind.console => false
  | HandlerKind.file _ => true

/-- A `logging.Logger` as observable here: its attached handlers, its level,
and its `propagate` flag. -/
structure Logger where
  handlers : List Handler
  level : Nat
  propagate : Bool
deriving DecidableEq, Repr

/-- A logger fresh from the registry (`logging.getLogger` on a new name):
no handlers, level `NOTSET = 0`, `propagate = True`. -/
def freshLogger : Logger :=
  { handlers := [], level := 0, propagate := true }

/-- Models `_configure_handlers(logger, ...)`: drop every attached handler, set the
level, then attach a new console handler if `log_to_console` and a new file
handler if `log_to_file`.  `next` is the next free handler serial number;
the updated logger and serial counter are returned. -/
def _configure_handlers (logger : Logger) (next : Nat) (log_level : Nat)
    (log_to_console : Bool) (log_to_file : Bool) (log_format : String)
    (date_format : String) (log_file_path : CfgPath) : Logger × Nat :=
  -- remove all existing handlers to avoid duplicates
  let logger := { logger with handlers := [] }
  -- set the logger's level
  let logger := { logger with level := log_level }
  let step1 : List Handler × Nat :=
    if log_to_console then
      ([{ hid := next, kind := HandlerKind.console, level := log_level,
          fmt := log_format, datefmt := date_format }], next + 1)
    else ([], next)
  let step2 : List Handler × Nat :=
    if log_to_file then
      (step1.1 ++ [{ hid := step1.2, kind := HandlerKind.file log_file_path,
                     level := log_level, fmt := log_format,
                     datefmt := date_format }], step1.2 + 1)
    else step1
  ({ logger with handlers := logger.handlers ++ step2.1 }, step2.2)

/-- Models `_get_log_file_path(config_path=None)`.  `modfile` is
`os.path.abspath(__file__)`.  Project-root discovery happens first in every
case; with a truthy `config_path` the path is returned (absolute) or joined
onto the root (relative); otherwise the `logs` directory is created when
absent and the default `<root>/logs/<basename(root)>.log` is returned. -/
def _get_log_file_path (fs : FS) (modfile : List String)
    (config_path : Option CfgPath) : Except Err (FS × CfgPath) :=
  match _find_project_root fs modfile with
  | .error e => .error e
  | .ok project_root =>
    let go_default : Except Err (FS × CfgPath) :=
      let log_directory := project_root ++ ["logs"]
      let fs1 := if fs.dirExists log_directory then fs else mkdirs fs log_directory
      let project_name := project_root.getLastD ""
      .ok (fs1, { absolute := true,
                  comps := log_directory ++ [project_name ++ ".log"] })
    match config_path with
    | some cp =>
      if cp.truthy then
        if cp.absolute then .ok (fs, cp)
        else .ok (fs, { absolute := true, comps := project_root ++ cp.comps })
      else go_default
    | none => go_default

/-- The merged configuration as consumed by the factory functions: which of
the recognized keys the merged mapping provides, and with what value. -/
structure Config where
  log_level : Option Nat
  log_to_console : Option Bool
  log_to_file : Option Bool
  log_format : Option String
  date_format : Option String
  log_file_path : Option CfgPath
deriving DecidableEq, Repr

/-- The caller-supplied optional arguments of `get_logger`. -/
structure GetLoggerArgs where
  log_level : Option Nat
  log_to_console : Option Bool
  log_to_file : Option Bool
  log_format : Option String
  date_format : Option String
  log_file_path : Option CfgPath
deriving DecidableEq, Repr

/-- Models `config["key"]`: the value, or a `KeyError` when the key is absent. -/
def getRequired {α : Type} (x : Option α) (key : String) : Except Err α :=
  match x with
  | some v => .ok v
  | none => .error (Err.missingKey key)

/-- Models `x or config["key"]` for an int-valued parameter: a supplied nonzero
value wins; `None` or `0` falls through to the config lookup (which can
raise `KeyError`). -/
def pyOrNat (x : Option Nat) (cfg : Option Nat) (key : String) :
    Except Err Nat :=
  match x with
  | some v => if v != 0 then .ok v else getRequired cfg key
  | none => getRequired cfg key

/-- Models `x or config["key"]` for a string-valued parameter: a supplied nonempty
string wins; `None` or `""` falls through to the config lookup. -/
def pyOrStr (x : Option String) (cfg : Option String) (key : String) :
    Except Err String :=
  match x with
  | some v => if v != "" then .ok v else getRequired cfg key
  | none => getRequired cfg key

/-- Models `x if x is not None else config["key"]`: any supplied value — `False`
included — wins; only `None` falls through to the config lookup. -/
def pyIfNotNoneBool (x : Option Bool) (cfg : Option Bool) (key : String) :
    Except Err Bool :=
  match x with
  | some v => .ok v
  | none => getRequired cfg key

/-- Models `log_file_path or _get_log_file_path(config.get("log_file_path"))`:
a truthy caller-supplied path short-circuits; otherwise (supplied `None` or
falsy) the right operand — path resolution — is evaluated. -/
def pyOrPath (x : Option CfgPath) (fs : FS) (modfile : List String)
    (cfgPath : Option CfgPath) : Except Err (FS × CfgPath) :=
  match x with
  | some p =>
      if p.truthy then Except.ok (fs, p)
      else _get_log_file_path fs modfile cfgPath
  | none => _get_log_file_path fs modfile cfgPath

/-- The observable outcome of a successful factory call: the filesystem
afterwards, the registry afterwards, the handler serial counter, the logger
the returned adapter wraps, and whether an initialization notice was emitted
through the adapter. -/
structure GetLoggerResult where
  fs : FS
  registry : String → Logger
  nextId : Nat
  logger : Logger
  initNotice : Bool

/-- Models `get_logger(name, ...)`: load config (taken as the `config` argument),
fetch the named logger, resolve each parameter with Python `or` /
`is not None` semantics (config lookups may raise `KeyError`), resolve the
file path via `_get_log_file_path` unless the caller supplied a truthy
`log_file_path`, reconfigure handlers, disable propagation, and emit an
initialization notice iff the logger's level is `DEBUG`. -/
def get_logger (fs : FS) (modfile : List String) (config : Config)
    (registry : String → Logger) (next : Nat) (name : String)
    (a : GetLoggerArgs) : Except Err GetLoggerResult :=
  let logger := registry name
  match pyOrNat a.log_level config.log_level "log_level" with
  | .error e => .error e
  | .ok log_level =>
  match pyIfNotNoneBool a.log_to_console config.log_to_console "log_to_console" with
  | .error e => .error e
  | .ok log_to_console =>
  match pyIfNotNoneBool a.log_to_file config.log_to_file "log_to_file" with
  | .error e => .error e
  | .ok log_to_file =>
  match pyOrStr a.log_format config.log_format "log_format" with
  | .error e => .error e
  | .ok log_format =>
  match pyOrStr a.date_format config.date_format "date_format" with
  | .error e => .error e
  | .ok date_format =>
  match pyOrPath a.log_file_path fs modfile config.log_file_path with
  | .error e => .error e
  | .ok (fs1, log_file_path) =>
    let cfgRes := _configure_handlers logger next log_level log_to_console
      log_to_file log_format date_format log_file_path
    let logger2 : Logger := { cfgRes.1 with propagate := false }
    Except.ok
      { fs := fs1
        registry := fun n => if n == name then logger2 else registry n
        nextId := cfgRes.2
        logger := logger2
        initNotice := logger2.level == DEBUG }

/-- Models `initialize_root_logger()`: read the five required keys (`KeyError` when
absent), evaluate `config.get("log_file_path", _get_log_file_path())` — whose
default argument is computed eagerly, before the lookup — then recompute the
path as `_get_log_file_path(config.get("log_file_path"))`, and reconfigure
the root logger (registry key `""`).  The summary notice is emitted
unconditionally. -/
def initialize_root_logger (fs : FS) (modfile : List String) (config : Config)
    (registry : String → Logger) (next : Nat) : Except Err GetLoggerResult :=
  match getRequired config.log_level "log_level" with
  | .error e => .error e
  | .ok log_level =>
  match getRequired config.log_to_console "log_to_console" with
  | .error e => .error e
  | .ok log_to_console =>
  match getRequired config.log_to_file "log_to_file" with
  | .error e => .error e
  | .ok log_to_file =>
  match getRequired config.log_format "log_format" with
  | .error e => .error e
  | .ok log_format =>
  match getRequired config.date_format "date_format" with
  | .error e => .error e
  | .ok date_format =>
  -- config.get("log_file_path", _get_log_file_path()): the default argument
  -- is evaluated before the lookup, unconditionally
  match _get_log_file_path fs modfile none with
  | .error e => .error e
  | .ok (fs1, default_path) =>
    let _lfp := config.log_file_path.getD default_path
    -- always pass the log_file_path from config to _get_log_file_path
    match _get_log_file_path fs1 modfile config.log_file_path with
    | .error e => .error e
    | .ok (fs2, log_file_path) =>
      let root_logger := registry ""
      let cfgRes := _configure_handlers root_logger next log_level
        log_to_console log_to_file log_format date_format log_file_path
      Except.ok
        { fs := fs2
          registry := fun n => if n == "" then cfgRes.1 else registry n
          nextId := cfgRes.2
          logger := cfgRes.1
          initNotice := true }

/-- Projection used to observe the resolved level of a factory call. -/
def levelOf : Except Err GetLoggerResult → Option Nat
  | .ok r => some r.logger.level
  | .error _ => none

/-! ### Helper lemmas -/

theorem prefix_concat_cases {A as : List String} {a : String}
    (h : A <+: as ++ [a]) : A = as ++ [a] ∨ A <+: as := by
  obtain ⟨t, ht⟩ := h
  rcases List.eq_nil_or_concat t with rfl | ⟨ts, b, rfl⟩
  · left; simpa using ht
  · right
    refine ⟨ts, ?_⟩
    have h2 := congrArg List.dropLast ht
    simpa [List.concat_eq_append, ← List.append_assoc, List.dropLast_concat]
      using h2

theorem find_loop_nearest_marker (marker : List String → Bool) :
    ∀ p A, A ≠ [] → A <+: p → marker A = true →
    (∀ q, q <+: p → A <+: q → q ≠ A → marker q = false) →
    _find_project_root_loop marker p = .ok A := by
  intro p
  induction p using List.reverseRecOn with
  | nil =>
    intro A hA hpre _ _
    exact absurd (List.prefix_nil.mp hpre) hA
  | append_singleton as a ih =>
    intro A hA hpre hm hq
    rw [_find_project_root_loop]
    have hne : as ++ [a] ≠ [] := by simp
    rcases hcase : marker (as ++ [a]) with _ | _
    · -- the current directory lacks the marker, so A is strictly above
      have hAne : A ≠ as ++ [a] := by
        intro hEq; rw [hEq, hcase] at hm; exact Bool.noConfusion hm
      have hpre' : A <+: as := by
        rcases prefix_concat_cases hpre with hEq | h
        · exact absurd hEq hAne
        · exact h
      simp only [hne, dif_neg, hcase, if_false, Bool.false_eq_true,
        List.dropLast_concat]
      exact ih A hA hpre' hm
        (fun q hq2 hsub hqne =>
          hq q (hq2.trans (List.prefix_append as [a])) hsub hqne)
    · -- the current directory has the marker; it lies at or below every
      -- deeper candidate, so it must be A itself
      have hEq : as ++ [a] = A := by
        by_contra hne2
        have := hq (as ++ [a]) List.prefix_rfl hpre hne2
        rw [this] at hcase; exact Bool.noConfusion hcase
      subst hEq
      simp [hne, hcase]

theorem find_loop_no_marker (marker : List String → Bool) :
    ∀ p, (∀ q, q <+: p → q ≠ [] → marker q = false) →
    _find_project_root_loop marker p = .error Err.projectRootNotFound := by
  intro p
  induction p using List.reverseRecOn with
  | nil => intro _; rw [_find_project_root_loop]; simp
  | append_singleton as a ih =>
    intro hq
    rw [_find_project_root_loop]
    have hne : as ++ [a] ≠ [] := by simp
    have hm : marker (as ++ [a]) = false := hq _ List.prefix_rfl hne
    simp only [hne, dif_neg, hm, Bool.false_eq_true, if_false,
      List.dropLast_concat]
    exact ih (fun q hq2 hne2 => hq q (hq2.trans (List.prefix_append as [a])) hne2)

/-! ### C2 — configuration merge -/

/-- C2: for a configuration file with default tier `D` and active environment
tier `E` (selected by the `ENV` variable, name defaulting to `"default"`),
`load_config` yields, at each key `k`, `E k` when present, else `D k`; when
`ENV` is unset or names an absent tier the result is exactly the default
tier's values. -/
theorem load_config_merge (V : Type)
    (full : String → Option (String → Option (String → Option V)))
    (logging : String → Option (String → Option V))
    (E D : String → Option V) (env k : String)
    (hfull : full "logging" = some logging)
    (hD : logging "default" = some D) :
    (logging env = some E →
      load_config (some env) full k =
        match E k with
        | some v => some v
        | none => D k)
    ∧ (logging env = none → load_config (some env) full k = D k)
    ∧ (load_config none full k = D k) := by
  refine ⟨?_, ?_, ?_⟩
  · intro hE
    simp only [load_config, Option.getD_some, hfull, hE, hD]
  · intro hE
    simp only [load_config, Option.getD_some, hfull, hE, hD, Option.getD_none]
  · have hlog : ((full "logging").getD (fun _ => none)) = logging := by
      rw [hfull]; rfl
    have hdef : ((logging "default").getD (fun _ => none)) = D := by
      rw [hD]; rfl
    simp only [load_config, Option.getD_none, hlog, hdef]
    cases hDk : D k <;> simp [hDk]

/-- The default tier of a concrete two-tier document. -/
def tierD : String → Option Nat := fun k =>
  if k = "log_level" then some 20
  else if k = "log_to_console" then some 1 else none

/-- The `prod` tier of a concrete two-tier document. -/
def tierE : String → Option Nat := fun k =>
  if k = "log_level" then some 10 else none

/-- The `logging` section of a concrete document. -/
def loggingSec : String → Option (String → Option Nat) := fun t =>
  if t = "default" then some tierD
  else if t = "prod" then some tierE else none

/-- A concrete parsed configuration document. -/
def fullDoc : String → Option (String → Option (String → Option Nat)) :=
  fun s => if s = "logging" then some loggingSec else none

theorem load_config_merge_witness :
    load_config (some "prod") fullDoc "log_level" = some 10 ∧
    load_config (some "prod") fullDoc "log_to_console" = some 1 ∧
    load_config (some "staging") fullDoc "log_level" = some 20 ∧
    load_config none fullDoc "log_level" = some 20 := by
  refine ⟨?_, ?_, ?_, ?_⟩
  · exact ((load_config_merge Nat fullDoc loggingSec tierE tierD "prod"
      "log_level" rfl rfl).1 rfl).trans rfl
  · exact ((load_config_merge Nat fullDoc loggingSec tierE tierD "prod"
      "log_to_console" rfl rfl).1 rfl).trans rfl
  · exact ((load_config_merge Nat fullDoc loggingSec tierE tierD "staging"
      "log_level" rfl rfl).2.1 rfl).trans rfl
  · exact ((load_config_merge Nat fullDoc loggingSec tierE tierD "staging"
      "log_level" rfl rfl).2.2).trans rfl

/-! ### C3 — project-root discovery -/

/-- C3 (amended): `_find_project_root` returns the *nearest* marker-bearing
ancestor strictly below the filesystem root — inclusive of the starting
directory, or of the containing directory when the start is a file: a
marker-bearing ancestor `A` is returned whenever no ancestor strictly between
`A` and the start carries the marker, regardless of markers in ancestors
above `A`.  The filesystem root itself is never examined, so when no ancestor
below the root carries the marker (even if the root itself does) the call
fails with the project-root-not-found error and substitutes no fallback. -/
theorem find_project_root_spec (fs : FS) (start A : List String) :
    (A ≠ [] →
      A <+: (if fs.isFile start then start.dropLast else start) →
      fs.hasMarker A = true →
      (∀ q, q <+: (if fs.isFile start then start.dropLast else start) →
        A <+: q → q ≠ A → fs.hasMarker q = false) →
      _find_project_root fs start = .ok A)
    ∧ ((∀ q, q <+: (if fs.isFile start then start.dropLast else start) →
        q ≠ [] → fs.hasMarker q = false) →
      _find_project_root fs start = .error Err.projectRootNotFound) := by
  constructor
  · intro hA hpre hm hq
    exact find_loop_nearest_marker fs.hasMarker _ A hA hpre hm hq
  · intro hq
    exact find_loop_no_marker fs.hasMarker _ hq

/-- A concrete tree: `/proj/.projectroot` exists, nothing else; the module
file lives at `/proj/config/logging_config.py`. -/
def fsProj : FS :=
  { isFile := fun p => p = ["proj", "config", "logging_config.py"]
    entries := fun p => if p = ["proj"] then [".projectroot"] else []
    dirExists := fun _ => false }

theorem prefix_of_single {q : List String} {x : String} (h : q <+: [x]) :
    q = [] ∨ q = [x] := by
  rcases q with _ | ⟨y, ys⟩
  · exact Or.inl rfl
  · right
    obtain ⟨t, ht⟩ := h
    simp only [List.cons_append, List.cons.injEq] at ht
    obtain ⟨rfl, h2⟩ := ht
    have : ys = [] := by
      rcases ys with _ | _
      · rfl
      · simp at h2
    rw [this]

theorem prefix_of_pair {q : List String} {x y : String} (h : q <+: [x, y]) :
    q = [] ∨ q = [x] ∨ q = [x, y] := by
  have h2 : q = [x] ++ [y] ∨ q <+: [x] := prefix_concat_cases (by simpa using h)
  rcases h2 with h2 | h2
  · exact Or.inr (Or.inr (by simpa using h2))
  · rcases prefix_of_single h2 with rfl | rfl
    · exact Or.inl rfl
    · exact Or.inr (Or.inl rfl)

theorem prefix_of_triple {q : List String} {x y z : String}
    (h : q <+: [x, y, z]) :
    q = [] ∨ q = [x] ∨ q = [x, y] ∨ q = [x, y, z] := by
  have h2 : q = [x, y] ++ [z] ∨ q <+: [x, y] :=
    prefix_concat_cases (by simpa using h)
  rcases h2 with h2 | h2
  · exact Or.inr (Or.inr (Or.inr (by simpa using h2)))
  · rcases prefix_of_pair h2 with rfl | rfl | rfl
    · exact Or.inl rfl
    · exact Or.inr (Or.inl rfl)
    · exact Or.inr (Or.inr (Or.inl rfl))

/-- A tree with two marker-bearing ancestors: both `/a/.projectroot` and
`/a/b/.projectroot` exist. -/
def fsMulti : FS :=
  { isFile := fun _ => false
    entries := fun p =>
      if p = ["a"] then [".projectroot"]
      else if p = ["a", "b"] then [".projectroot"] else []
    dirExists := fun _ => false }

theorem find_project_root_spec_witness :
    _find_project_root fsProj ["proj", "config"] = .ok ["proj"] ∧
    _find_project_root fsMulti ["a", "b", "c"] = .ok ["a", "b"] ∧
    _find_project_root fsProj ["other"] = .error Err.projectRootNotFound := by
  have hIf : (if fsProj.isFile ["proj", "config"] = true
      then List.dropLast ["proj", "config"] else ["proj", "config"]) =
      ["proj", "config"] := by decide
  have hIf2 : (if fsProj.isFile ["other"] = true
      then List.dropLast ["other"] else ["other"]) = ["other"] := by decide
  have hIf3 : (if fsMulti.isFile ["a", "b", "c"] = true
      then List.dropLast ["a", "b", "c"] else ["a", "b", "c"]) =
      ["a", "b", "c"] := by decide
  refine ⟨?_, ?_, ?_⟩
  · refine (find_project_root_spec fsProj ["proj", "config"] ["proj"]).1
      (by decide) ?_ (by decide) ?_
    · rw [hIf]; exact ⟨["config"], rfl⟩
    · intro q hq _ hne
      rw [hIf] at hq
      rcases prefix_of_pair hq with rfl | rfl | rfl
      · decide
      · exact absurd rfl hne
      · decide
  · -- two marked ancestors: the nearest (deepest) one, /a/b, is returned
    refine (find_project_root_spec fsMulti ["a", "b", "c"] ["a", "b"]).1
      (by decide) ?_ (by decide) ?_
    · rw [hIf3]; exact ⟨["c"], rfl⟩
    · intro q hq hsub hne
      rw [hIf3] at hq
      rcases prefix_of_triple hq with rfl | rfl | rfl | rfl
      · -- /a/b is no prefix of the root
        obtain ⟨t, ht⟩ := hsub
        simp at ht
      · -- /a/b is no prefix of /a
        obtain ⟨t, ht⟩ := hsub
        simp at ht
      · exact absurd rfl hne
      · decide
  · refine (find_project_root_spec fsProj ["other"] []).2 ?_
    intro q hq hne
    rw [hIf2] at hq
    rcases prefix_of_single hq with rfl | rfl
    · exact absurd rfl hne
    · decide

/-- C3 counterexample: with the sentinel present only in the filesystem root
(`/`) and the start `/a` strictly inside that tree, the claim demands the
root be returned; the code raises project-root-not-found instead, because the
loop guard stops before the root directory is ever listed. -/
def fsRootMarked : FS :=
  { isFile := fun _ => false
    entries := fun p => if p = [] then [".projectroot"] else []
    dirExists := fun _ => false }

theorem find_project_root_root_marker_fails :
    fsRootMarked.hasMarker [] = true ∧
    [] <+: ["a"] ∧
    _find_project_root fsRootMarked ["a"] = .error Err.projectRootNotFound := by
  refine ⟨rfl, ⟨["a"], rfl⟩, ?_⟩
  rw [_find_project_root, _find_project_root_loop]
  norm_num [fsRootMarked, FS.hasMarker]
  rw [_find_project_root_loop]
  simp

/-! ### C6 — contextual adapter -/

/-- A frame's `self` binding passes the source's test: it is truthy
(`if local_self`) and not a `CustomLoggerAdapter`. -/
def qualifies (f : Option SelfObj) : Bool :=
  match f with
  | some s => s.truthy && !s.isAdapter
  | none => false

theorem findClassName_all_false :
    ∀ l : List (Option SelfObj), (∀ f ∈ l, qualifies f = false) →
    findClassName l = "" := by
  intro l
  induction l with
  | nil => intro _; rfl
  | cons f rest ih =>
    intro hall
    rcases f with _ | s
    · exact ih (fun g hg => hall g (List.mem_cons_of_mem _ hg))
    · have h1 : (s.truthy && !s.isAdapter) = false := hall (some s) (List.mem_cons_self _ _)
      simp only [findClassName, h1, Bool.false_eq_true, if_false]
      exact ih (fun g hg => hall g (List.mem_cons_of_mem _ hg))

theorem findClassName_first_qualifying
    (pre post : List (Option SelfObj)) (s : SelfObj)
    (hpre : ∀ f ∈ pre, qualifies f = false)
    (ht : s.truthy = true) (ha : s.isAdapter = false) :
    findClassName (pre ++ some s :: post) = s.className := by
  induction pre with
  | nil => simp [findClassName, ht, ha]
  | cons f rest ih =>
    rcases f with _ | u
    · simpa [findClassName] using
        ih (fun g hg => hpre g (List.mem_cons_of_mem _ hg))
    · have h1 : (u.truthy && !u.isAdapter) = false := hpre (some u) (List.mem_cons_self _ _)
      simp only [List.cons_append, findClassName, h1, Bool.false_eq_true, if_false]
      exact ih (fun g hg => hpre g (List.mem_cons_of_mem _ hg))

/-- C6 (amended): the adapter's message processing is a total function that
never fails; the message is prefixed with `"<ClassName>: "` where `ClassName`
comes from the first frame (from two above the call site outward) whose
`self` binding exists, is *truthy*, and is not an adapter instance — frames
whose `self` binding exists but is falsy are skipped; when no frame
qualifies, the message is returned without a prefix. -/
theorem adapter_process_spec (stack : List (Option SelfObj)) (msg : String)
    (pre post : List (Option SelfObj)) (s : SelfObj) :
    ((∀ f ∈ stack.drop 2, qualifies f = false) →
      CustomLoggerAdapter.process stack msg = msg)
    ∧ (stack.drop 2 = pre ++ some s :: post →
      (∀ f ∈ pre, qualifies f = false) →
      s.truthy = true → s.isAdapter = false → s.className ≠ "" →
      CustomLoggerAdapter.process stack msg = s.className ++ ": " ++ msg) := by
  constructor
  · intro hall
    have h1 : findClassName (stack.drop 2) = "" := findClassName_all_false _ hall
    simp [CustomLoggerAdapter.process, h1]
  · intro hsplit hpre ht ha hn
    have h1 : findClassName (stack.drop 2) = s.className := by
      rw [hsplit]; exact findClassName_first_qualifying pre post s hpre ht ha
    simp [CustomLoggerAdapter.process, h1, hn]

/-- A concrete call stack: frames 0 and 1 have no `self`; frame 2's `self`
is an adapter instance; frame 3's `self` is a `Foo`. -/
def stackFoo : List (Option SelfObj) :=
  [none, none,
   some { className := "CustomLoggerAdapter", isAdapter := true, truthy := true },
   some { className := "Foo", isAdapter := false, truthy := true }]

theorem adapter_process_spec_witness :
    CustomLoggerAdapter.process stackFoo "msg" = "Foo: msg" ∧
    CustomLoggerAdapter.process [none, none, none] "msg" = "msg" := by
  constructor
  · exact (adapter_process_spec stackFoo "msg"
      [some { className := "CustomLoggerAdapter", isAdapter := true,
              truthy := true }] []
      { className := "Foo", isAdapter := false, truthy := true }).2
      rfl (by decide) rfl rfl (by decide)
  · exact (adapter_process_spec [none, none, none] "msg" [] []
      { className := "", isAdapter := false, truthy := false }).1
      (by decide)

/-- A concrete call stack on which the code and the claim disagree: frame 2's
`self` exists, is not an adapter, but is *falsy* (e.g. an empty container
whose `__bool__`/`__len__` makes it false); frame 3's `self` is a truthy
`Bar`. -/
def stackFalsy : List (Option SelfObj) :=
  [none, none,
   some { className := "Foo", isAdapter := false, truthy := false },
   some { className := "Bar", isAdapter := false, truthy := true }]

/-- C6 counterexample: the claim picks the first existing non-adapter `self`
(`Foo`); the code's `if local_self and ...` skips the falsy `Foo` binding and
prefixes with `Bar` instead. -/
theorem adapter_process_falsy_self_skipped :
    specProcess stackFalsy "msg" = "Foo: msg" ∧
    CustomLoggerAdapter.process stackFalsy "msg" = "Bar: msg" ∧
    CustomLoggerAdapter.process stackFalsy "msg" ≠ specProcess stackFalsy "msg" := by
  refine ⟨rfl, rfl, ?_⟩
  decide

/-! ### C1 — handler (re)configuration -/

theorem configure_handlers_members (L : Logger) (n lv : Nat) (c f : Bool)
    (fm dm : String) (p : CfgPath) :
    ∀ h ∈ (_configure_handlers L n lv c f fm dm p).1.handlers,
      n ≤ h.hid ∧ h.hid < (_configure_handlers L n lv c f fm dm p).2 := by
  cases c <;> cases f <;>
    simp [_configure_handlers] <;>
    omega

theorem configure_handlers_counts (L : Logger) (n lv : Nat) (c f : Bool)
    (fm dm : String) (p : CfgPath) :
    ((_configure_handlers L n lv c f fm dm p).1.handlers.countP
        (fun h => h.isConsole) = if c then 1 else 0)
    ∧ ((_configure_handlers L n lv c f fm dm p).1.handlers.countP
        (fun h => h.isFileSink) = if f then 1 else 0) := by
  cases c <;> cases f <;>
    simp [_configure_handlers, Handler.isConsole, Handler.isFileSink,
      List.countP_cons, List.countP_nil, List.countP_append]

/-- C1: after two successive `_configure_handlers` calls with any two option
sets, the logger carries exactly the handler set implied by the second call —
one console handler iff `log_to_console`, one file handler iff `log_to_file` —
and no handler object attached before the second call survives it. -/
theorem configure_handlers_no_accumulation (L : Logger) (n : Nat)
    (l1 : Nat) (c1 f1 : Bool) (fm1 dm1 : String) (p1 : CfgPath)
    (l2 : Nat) (c2 f2 : Bool) (fm2 dm2 : String) (p2 : CfgPath) :
    (let r1 := _configure_handlers L n l1 c1 f1 fm1 dm1 p1
     let r2 := _configure_handlers r1.1 r1.2 l2 c2 f2 fm2 dm2 p2
     (r2.1.handlers.countP (fun h => h.isConsole) = if c2 then 1 else 0)
     ∧ (r2.1.handlers.countP (fun h => h.isFileSink) = if f2 then 1 else 0)
     ∧ ∀ h ∈ r1.1.handlers, h ∉ r2.1.handlers) := by
  refine ⟨(configure_handlers_counts _ _ _ _ _ _ _ _).1,
          (configure_handlers_counts _ _ _ _ _ _ _ _).2, ?_⟩
  intro h hmem hmem2
  have h1 := (configure_handlers_members L n l1 c1 f1 fm1 dm1 p1 h hmem).2
  have h2 := (configure_handlers_members _ _ l2 c2 f2 fm2 dm2 p2 h hmem2).1
  omega

/-- A concrete absolute log-file path. -/
def pAbs : CfgPath := { absolute := true, comps := ["var", "log", "app.log"] }

theorem configure_handlers_no_accumulation_witness :
    ((_configure_handlers
        (_configure_handlers freshLogger 0 20 true true "f" "d" pAbs).1
        (_configure_handlers freshLogger 0 20 true true "f" "d" pAbs).2
        30 true false "g" "e" pAbs).1.handlers.countP
        (fun h => h.isConsole) = 1)
    ∧ (({ hid := 0, kind := HandlerKind.console, level := 20, fmt := "f",
          datefmt := "d" } : Handler) ∉
        (_configure_handlers
          (_configure_handlers freshLogger 0 20 true true "f" "d" pAbs).1
          (_configure_handlers freshLogger 0 20 true true "f" "d" pAbs).2
          30 true false "g" "e" pAbs).1.handlers) := by
  constructor
  · have h1 := (configure_handlers_no_accumulation freshLogger 0
      20 true true "f" "d" pAbs 30 true false "g" "e" pAbs).1
    simpa using h1
  · exact (configure_handlers_no_accumulation freshLogger 0
      20 true true "f" "d" pAbs 30 true false "g" "e" pAbs).2.2
      { hid := 0, kind := HandlerKind.console, level := 20, fmt := "f",
        datefmt := "d" }
      (by decide)

/-! ### Filesystem and path-resolution lemmas -/

theorem isAncestorOrSelf_refl (p : List String) : isAncestorOrSelf p p = true := by
  induction p with
  | nil => rfl
  | cons a as ih => simp [isAncestorOrSelf, ih]

theorem mkdirs_dirExists_self (fs : FS) (p : List String) :
    (mkdirs fs p).dirExists p = true := by
  simp [mkdirs, isAncestorOrSelf_refl]

theorem mkdirs_mono (fs : FS) (p q : List String)
    (h : fs.dirExists q = true) : (mkdirs fs p).dirExists q = true := by
  simp [mkdirs, h]

/-- Since `makedirs` touches only `dirExists`, and `_find_project_root` reads only
`isFile` and `entries`, so root discovery is unaffected by it. -/
theorem find_mkdirs (fs : FS) (p start : List String) :
    _find_project_root (mkdirs fs p) start = _find_project_root fs start := rfl

/-- Success shape of `_get_log_file_path` with no configured path: the
default path is produced, the `logs` directory exists afterwards, nothing
happens when it already existed, and root discovery still succeeds on the
resulting filesystem. -/
theorem gflp_none_creates (fs : FS) (modfile root : List String)
    (hfind : _find_project_root fs modfile = .ok root) :
    ∃ fs1, _get_log_file_path fs modfile none =
        .ok (fs1, { absolute := true,
                    comps := root ++ ["logs"] ++ [root.getLastD "" ++ ".log"] })
      ∧ fs1.dirExists (root ++ ["logs"]) = true
      ∧ (fs.dirExists (root ++ ["logs"]) = true → fs1 = fs)
      ∧ _find_project_root fs1 modfile = .ok root := by
  unfold _get_log_file_path
  rw [hfind]
  by_cases hdir : fs.dirExists (root ++ ["logs"]) = true
  · refine ⟨fs, ?_, hdir, fun _ => rfl, hfind⟩
    simp [hdir]
  · have hdir2 : fs.dirExists (root ++ ["logs"]) = false :=
      Bool.eq_false_iff.mpr hdir
    refine ⟨mkdirs fs (root ++ ["logs"]), ?_, mkdirs_dirExists_self _ _,
      fun hcontra => absurd hcontra hdir, (find_mkdirs fs _ modfile).trans hfind⟩
    simp [hdir2]

/-- The function `_get_log_file_path` never un-creates a directory. -/
theorem gflp_preserves_dirExists (fs : FS) (modfile : List String)
    (cp : Option CfgPath) (q : List String) (hq : fs.dirExists q = true)
    (fs2 : FS) (lfp : CfgPath)
    (h : _get_log_file_path fs modfile cp = .ok (fs2, lfp)) :
    fs2.dirExists q = true := by
  unfold _get_log_file_path at h
  cases hfind : _find_project_root fs modfile with
  | error e => rw [hfind] at h; exact Except.noConfusion h
  | ok root =>
    rw [hfind] at h
    have hdefault :
        (if fs.dirExists (root ++ ["logs"]) = true then fs
         else mkdirs fs (root ++ ["logs"])).dirExists q = true := by
      by_cases hdir : fs.dirExists (root ++ ["logs"]) = true
      · simpa [hdir] using hq
      · have : fs.dirExists (root ++ ["logs"]) = false := Bool.eq_false_iff.mpr hdir
        simpa [this] using mkdirs_mono fs _ q hq
    rcases cp with _ | p
    · simp only at h
      injection h with h2
      rw [← (Prod.mk.injEq _ _ _ _).mp h2 |>.1]
      exact hdefault
    · by_cases htr : p.truthy = true
      · by_cases habs : p.absolute = true
        · simp only [htr, habs, if_true] at h
          injection h with h2
          rw [← (Prod.mk.injEq _ _ _ _).mp h2 |>.1]
          exact hq
        · have habs2 : p.absolute = false := Bool.eq_false_iff.mpr habs
          simp only [htr, habs2, if_true, Bool.false_eq_true, if_false] at h
          injection h with h2
          rw [← (Prod.mk.injEq _ _ _ _).mp h2 |>.1]
          exact hq
      · have htr2 : p.truthy = false := Bool.eq_false_iff.mpr htr
        simp only [htr2, Bool.false_eq_true, if_false] at h
        injection h with h2
        rw [← (Prod.mk.injEq _ _ _ _).mp h2 |>.1]
        exact hdefault

/-- The function `_get_log_file_path` succeeds whenever root discovery does. -/
theorem gflp_ok_of_find (fs : FS) (modfile root : List String)
    (hfind : _find_project_root fs modfile = .ok root) (cp : Option CfgPath) :
    ∃ fs2 lfp, _get_log_file_path fs modfile cp = .ok (fs2, lfp) := by
  unfold _get_log_file_path
  rw [hfind]
  rcases cp with _ | p
  · exact ⟨_, _, rfl⟩
  · by_cases htr : p.truthy = true
    · by_cases habs : p.absolute = true
      · exact ⟨fs, p, by simp [htr, habs]⟩
      · have habs2 : p.absolute = false := Bool.eq_false_iff.mpr habs
        exact ⟨fs, { absolute := true, comps := root ++ p.comps },
          by simp [htr, habs2]⟩
    · have htr2 : p.truthy = false := Bool.eq_false_iff.mpr htr
      exact ⟨(if fs.dirExists (root ++ ["logs"]) = true then fs
              else mkdirs fs (root ++ ["logs"])),
             { absolute := true,
               comps := root ++ ["logs", root.getLastD "" ++ ".log"] },
             by simp [htr2]⟩

/-! ### C5 — log-file path resolution -/

/-- C5: with the project root discovered, `_get_log_file_path` returns an
absolute configured path unchanged; joins a relative configured path onto the
project root; with no configured path returns
`<root>/logs/<basename(root)>.log` with the `logs` directory existing
afterwards (creation idempotent: an already-existing directory leaves the
filesystem untouched and nothing fails); and a project-root-not-found error
from discovery propagates in every mode. -/
theorem get_log_file_path_spec (fs : FS) (modfile root : List String)
    (cp : CfgPath) :
    (_find_project_root fs modfile = .ok root → cp.absolute = true →
      _get_log_file_path fs modfile (some cp) = .ok (fs, cp))
    ∧ (_find_project_root fs modfile = .ok root → cp.absolute = false →
      cp.comps ≠ [] →
      _get_log_file_path fs modfile (some cp) =
        .ok (fs, { absolute := true, comps := root ++ cp.comps }))
    ∧ (_find_project_root fs modfile = .ok root →
      ∃ fs1, _get_log_file_path fs modfile none =
          .ok (fs1, { absolute := true,
                      comps := root ++ ["logs"] ++ [root.getLastD "" ++ ".log"] })
        ∧ fs1.dirExists (root ++ ["logs"]) = true
        ∧ (fs.dirExists (root ++ ["logs"]) = true → fs1 = fs))
    ∧ (∀ e, _find_project_root fs modfile = .error e →
      ∀ cp2 : Option CfgPath, _get_log_file_path fs modfile cp2 = .error e) := by
  refine ⟨?_, ?_, ?_, ?_⟩
  · intro hfind habs
    have htr : cp.truthy = true := by simp [CfgPath.truthy, habs]
    unfold _get_log_file_path
    rw [hfind]
    simp [htr, habs]
  · intro hfind habs hne
    have htr : cp.truthy = true := by
      simp [CfgPath.truthy, habs, List.isEmpty_iff, hne]
    unfold _get_log_file_path
    rw [hfind]
    simp [htr, habs]
  · intro hfind
    obtain ⟨fs1, h1, h2, h3, _⟩ := gflp_none_creates fs modfile root hfind
    exact ⟨fs1, h1, h2, h3⟩
  · intro e hfind cp2
    unfold _get_log_file_path
    rw [hfind]

/-- A minimal marked tree: the module file is `/proj/logging_config.py` and
`/proj/.projectroot` exists. -/
def fsMini : FS :=
  { isFile := fun p => p = ["proj", "logging_config.py"]
    entries := fun p => if p = ["proj"] then [".projectroot"] else []
    dirExists := fun _ => false }

/-- Value of `os.path.abspath(__file__)` for the minimal tree. -/
def modMini : List String := ["proj", "logging_config.py"]

theorem find_fsMini : _find_project_root fsMini modMini = .ok ["proj"] := by
  rw [_find_project_root, _find_project_root_loop]
  norm_num [fsMini, FS.hasMarker, modMini]

/-- A markerless tree: no directory anywhere lists the sentinel. -/
def fsBare : FS :=
  { isFile := fun _ => false
    entries := fun _ => []
    dirExists := fun _ => false }

/-- A starting path in the markerless tree. -/
def modBare : List String := ["proj", "cfg"]

theorem find_fsBare :
    _find_project_root fsBare modBare = .error Err.projectRootNotFound :=
  find_loop_no_marker fsBare.hasMarker _ (fun _ _ _ => rfl)

/-- A concrete relative configured path. -/
def pRel : CfgPath := { absolute := false, comps := ["myrun.log"] }

theorem get_log_file_path_spec_witness :
    _get_log_file_path fsMini modMini (some pAbs) = .ok (fsMini, pAbs)
    ∧ _get_log_file_path fsMini modMini (some pRel) =
        .ok (fsMini, { absolute := true, comps := ["proj", "myrun.log"] })
    ∧ _get_log_file_path fsBare modBare (some pAbs) =
        .error Err.projectRootNotFound := by
  refine ⟨?_, ?_, ?_⟩
  · exact (get_log_file_path_spec fsMini modMini ["proj"] pAbs).1 find_fsMini rfl
  · exact (get_log_file_path_spec fsMini modMini ["proj"] pRel).2.1
      find_fsMini rfl (by decide)
  · exact (get_log_file_path_spec fsBare modBare [] pAbs).2.2.2
      Err.projectRootNotFound find_fsBare (some pAbs)

/-! ### get_logger decomposition -/

theorem configure_handlers_level (L : Logger) (n lv : Nat) (c f : Bool)
    (fm dm : String) (p : CfgPath) :
    (_configure_handlers L n lv c f fm dm p).1.level = lv := by
  cases c <;> cases f <;> simp [_configure_handlers]

/-- Every successful `get_logger` run has this shape: some resolved options
`l c f fm dm` and resolved path `p` such that the returned logger is the
freshly reconfigured registry logger with propagation disabled, the
init-notice flag is the `DEBUG` level test, and the registry maps `name` to
that logger. -/
theorem get_logger_ok_dest (fs : FS) (modfile : List String) (config : Config)
    (registry : String → Logger) (next : Nat) (name : String)
    (a : GetLoggerArgs) (r : GetLoggerResult)
    (h : get_logger fs modfile config registry next name a = .ok r) :
    ∃ l c f fm dm p,
      pyOrNat a.log_level config.log_level "log_level" = .ok l
      ∧ pyIfNotNoneBool a.log_to_console config.log_to_console
          "log_to_console" = .ok c
      ∧ pyIfNotNoneBool a.log_to_file config.log_to_file "log_to_file" = .ok f
      ∧ r.logger = { (_configure_handlers (registry name) next l c f fm dm p).1
                      with propagate := false }
      ∧ r.initNotice = (r.logger.level == DEBUG)
      ∧ r.registry name = r.logger := by
  unfold get_logger at h
  cases hl : pyOrNat a.log_level config.log_level "log_level" with
  | error e => rw [hl] at h; exact Except.noConfusion h
  | ok l =>
  rw [hl] at h
  cases hc : pyIfNotNoneBool a.log_to_console config.log_to_console
      "log_to_console" with
  | error e => rw [hc] at h; exact Except.noConfusion h
  | ok c =>
  rw [hc] at h
  cases hf : pyIfNotNoneBool a.log_to_file config.log_to_file "log_to_file" with
  | error e => rw [hf] at h; exact Except.noConfusion h
  | ok f =>
  rw [hf] at h
  cases hfm : pyOrStr a.log_format config.log_format "log_format" with
  | error e => rw [hfm] at h; exact Except.noConfusion h
  | ok fm =>
  rw [hfm] at h
  cases hdm : pyOrStr a.date_format config.date_format "date_format" with
  | error e => rw [hdm] at h; exact Except.noConfusion h
  | ok dm =>
  rw [hdm] at h
  cases hp : pyOrPath a.log_file_path fs modfile config.log_file_path with
  | error e => rw [hp] at h; exact Except.noConfusion h
  | ok pr =>
  obtain ⟨fs1, lfp⟩ := pr
  rw [hp] at h
  simp only at h
  injection h with h2
  subst h2
  exact ⟨l, c, f, fm, dm, lfp, rfl, rfl, rfl, rfl, rfl, by simp⟩

/-! ### C7 — initialization notice iff DEBUG -/

/-- C7: a successful `get_logger` call emits the initialization notice
through the adapter iff the resolved level is `DEBUG`; moreover the
returned logger's level is exactly the resolved level. -/
theorem get_logger_debug_notice (fs : FS) (modfile : List String)
    (config : Config) (registry : String → Logger) (next : Nat)
    (name : String) (a : GetLoggerArgs) (l : Nat) (r : GetLoggerResult)
    (hl : pyOrNat a.log_level config.log_level "log_level" = .ok l)
    (h : get_logger fs modfile config registry next name a = .ok r) :
    (r.initNotice = true ↔ r.logger.level = DEBUG)
    ∧ r.logger.level = l := by
  obtain ⟨l', c, f, fm, dm, p, hl', hc, hf, hlog, hnot, hreg⟩ :=
    get_logger_ok_dest fs modfile config registry next name a r h
  have hll : l' = l := by
    have := hl'.symm.trans hl
    exact Except.ok.inj this
  subst hll
  constructor
  · rw [hnot]
    exact beq_iff_eq
  · rw [hlog]
    exact configure_handlers_level (registry name) next l' c f fm dm p

theorem get_logger_eval (fs : FS) (modfile : List String) (config : Config)
    (registry : String → Logger) (next : Nat) (name : String)
    (a : GetLoggerArgs) (l : Nat) (c f : Bool) (fm dm : String)
    (fs1 : FS) (lfp : CfgPath)
    (hl : pyOrNat a.log_level config.log_level "log_level" = .ok l)
    (hc : pyIfNotNoneBool a.log_to_console config.log_to_console
      "log_to_console" = .ok c)
    (hf : pyIfNotNoneBool a.log_to_file config.log_to_file "log_to_file" = .ok f)
    (hfm : pyOrStr a.log_format config.log_format "log_format" = .ok fm)
    (hdm : pyOrStr a.date_format config.date_format "date_format" = .ok dm)
    (hp : pyOrPath a.log_file_path fs modfile config.log_file_path =
      .ok (fs1, lfp)) :
    get_logger fs modfile config registry next name a =
      .ok { fs := fs1
            registry := fun n => if n == name then
                { (_configure_handlers (registry name) next l c f fm dm lfp).1
                  with propagate := false }
              else registry n
            nextId := (_configure_handlers (registry name) next l c f fm dm lfp).2
            logger := { (_configure_handlers (registry name) next l c f fm dm
                lfp).1 with propagate := false }
            initNotice :=
              ((_configure_handlers (registry name) next l c f fm dm lfp).1.level
                == DEBUG) } := by
  unfold get_logger
  rw [hl, hc, hf, hfm, hdm, hp]

/-- All `get_logger` arguments omitted. -/
def argsNone : GetLoggerArgs :=
  { log_level := none, log_to_console := none, log_to_file := none,
    log_format := none, date_format := none, log_file_path := none }

/-- A complete configuration at `DEBUG` with console only and an absolute
configured `log_file_path`. -/
def cfgDebug : Config :=
  { log_level := some DEBUG, log_to_console := some true,
    log_to_file := some false, log_format := some "fmt",
    date_format := some "dt", log_file_path := some pAbs }

/-- Projection observing whether the initialization notice was emitted. -/
def noticeOf : Except Err GetLoggerResult → Option Bool
  | .ok r => some r.initNotice
  | .error _ => none

theorem pyOrPath_none_cfgAbs :
    pyOrPath argsNone.log_file_path fsMini modMini (some pAbs) =
      .ok (fsMini, pAbs) := by
  show _get_log_file_path fsMini modMini (some pAbs) = .ok (fsMini, pAbs)
  unfold _get_log_file_path
  rw [find_fsMini]
  simp [pAbs, CfgPath.truthy]

theorem get_logger_debug_notice_witness :
    noticeOf (get_logger fsMini modMini cfgDebug (fun _ => freshLogger) 0 "x"
      argsNone) = some true
    ∧ levelOf (get_logger fsMini modMini cfgDebug (fun _ => freshLogger) 0 "x"
      argsNone) = some DEBUG := by
  have hok := get_logger_eval fsMini modMini cfgDebug (fun _ => freshLogger)
    0 "x" argsNone DEBUG true false "fmt" "dt" fsMini pAbs
    rfl rfl rfl rfl rfl pyOrPath_none_cfgAbs
  have hmain := get_logger_debug_notice fsMini modMini cfgDebug
    (fun _ => freshLogger) 0 "x" argsNone DEBUG _ rfl hok
  rw [hok]
  exact ⟨congrArg some (hmain.1.mpr hmain.2), congrArg some hmain.2⟩

/-! ### C9 — propagation disabled -/

/-- C9: after every successful `get_logger(name, ...)` call, the named
logger in the registry — which is the logger the returned adapter wraps —
has its `propagate` flag disabled. -/
theorem get_logger_disables_propagation (fs : FS) (modfile : List String)
    (config : Config) (registry : String → Logger) (next : Nat)
    (name : String) (a : GetLoggerArgs) (r : GetLoggerResult)
    (h : get_logger fs modfile config registry next name a = .ok r) :
    (r.registry name).propagate = false ∧ r.logger.propagate = false := by
  obtain ⟨l, c, f, fm, dm, p, _, _, _, hlog, _, hreg⟩ :=
    get_logger_ok_dest fs modfile config registry next name a r h
  constructor
  · rw [hreg, hlog]
  · rw [hlog]

/-- Projection observing the `propagate` flag of the registry entry. -/
def propagateOf (name : String) : Except Err GetLoggerResult → Option Bool :=
  fun x =>
    match x with
    | .ok r => some ((r.registry name).propagate)
    | .error _ => none

theorem get_logger_disables_propagation_witness :
    propagateOf "x" (get_logger fsMini modMini cfgDebug (fun _ => freshLogger)
      0 "x" argsNone) = some false := by
  have hok := get_logger_eval fsMini modMini cfgDebug (fun _ => freshLogger)
    0 "x" argsNone DEBUG true false "fmt" "dt" fsMini pAbs
    rfl rfl rfl rfl rfl pyOrPath_none_cfgAbs
  have hmain := get_logger_disables_propagation fsMini modMini cfgDebug
    (fun _ => freshLogger) 0 "x" argsNone _ hok
  rw [hok]
  simp only [propagateOf]
  exact congrArg some hmain.1

/-! ### C4 — path resolution in get_logger -/

/-- C4 (amended): `get_logger` resolves the log-file path whenever the caller
does not supply a truthy `log_file_path`, regardless of whether file logging
is enabled — so with no sentinel ancestor such calls fail with the project
root error even when `log_to_file` resolves to false.  Only a call with a
truthy caller-supplied `log_file_path` skips resolution: it succeeds with the
filesystem untouched and a console sink iff `log_to_console`, a file sink iff
`log_to_file`. -/
theorem get_logger_path_resolution (fs : FS) (modfile : List String)
    (config : Config) (registry : String → Logger) (next : Nat)
    (name : String) (a : GetLoggerArgs) (l : Nat) (c f : Bool)
    (fm dm : String) (p : CfgPath)
    (hl : pyOrNat a.log_level config.log_level "log_level" = .ok l)
    (hc : pyIfNotNoneBool a.log_to_console config.log_to_console
      "log_to_console" = .ok c)
    (hf : pyIfNotNoneBool a.log_to_file config.log_to_file "log_to_file" = .ok f)
    (hfm : pyOrStr a.log_format config.log_format "log_format" = .ok fm)
    (hdm : pyOrStr a.date_format config.date_format "date_format" = .ok dm) :
    ((a.log_file_path = some p → p.truthy = true →
      ∃ r, get_logger fs modfile config registry next name a = .ok r
        ∧ r.fs = fs
        ∧ r.logger.handlers.countP (fun h => h.isConsole) =
            (if c then 1 else 0)
        ∧ r.logger.handlers.countP (fun h => h.isFileSink) =
            (if f then 1 else 0))
    ∧ ((∀ q, a.log_file_path = some q → q.truthy = false) →
      _find_project_root fs modfile = .error Err.projectRootNotFound →
      get_logger fs modfile config registry next name a =
        .error Err.projectRootNotFound)) := by
  constructor
  · intro hap htr
    have hp : pyOrPath a.log_file_path fs modfile config.log_file_path =
        .ok (fs, p) := by
      rw [hap]
      show (if p.truthy = true then Except.ok (fs, p)
            else _get_log_file_path fs modfile config.log_file_path) =
        Except.ok (fs, p)
      rw [if_pos htr]
    have hok := get_logger_eval fs modfile config registry next name a
      l c f fm dm fs p hl hc hf hfm hdm hp
    refine ⟨_, hok, rfl, ?_, ?_⟩
    · exact (configure_handlers_counts (registry name) next l c f fm dm p).1
    · exact (configure_handlers_counts (registry name) next l c f fm dm p).2
  · intro hq hfind
    have hp : pyOrPath a.log_file_path fs modfile config.log_file_path =
        .error Err.projectRootNotFound := by
      rcases ha : a.log_file_path with _ | q
      · show _get_log_file_path fs modfile config.log_file_path = _
        unfold _get_log_file_path
        rw [hfind]
      · have htr := hq q ha
        show (if q.truthy = true then Except.ok (fs, q)
              else _get_log_file_path fs modfile config.log_file_path) =
          Except.error Err.projectRootNotFound
        rw [if_neg (by rw [htr]; exact Bool.false_ne_true)]
        unfold _get_log_file_path
        rw [hfind]
    unfold get_logger
    rw [hl, hc, hf, hfm, hdm, hp]

/-- C4 counterexample: configuration disables file logging
(`log_to_file: false`), yet `get_logger` with no caller-supplied path in a
markerless tree raises the project-root error instead of succeeding, because
`log_file_path or _get_log_file_path(...)` resolves the path
unconditionally. -/
theorem get_logger_eager_resolution_cex :
    cfgDebug.log_to_file = some false
    ∧ get_logger fsBare modBare cfgDebug (fun _ => freshLogger) 0 "x"
        argsNone = .error Err.projectRootNotFound := by
  refine ⟨rfl, ?_⟩
  have hp : pyOrPath argsNone.log_file_path fsBare modBare
      cfgDebug.log_file_path = .error Err.projectRootNotFound := by
    show _get_log_file_path fsBare modBare (some pAbs) = _
    unfold _get_log_file_path
    rw [find_fsBare]
  unfold get_logger
  rw [hp]
  rfl

/-- Arguments with only a truthy absolute `log_file_path` supplied. -/
def argsWithPath : GetLoggerArgs :=
  { log_level := none, log_to_console := none, log_to_file := none,
    log_format := none, date_format := none, log_file_path := some pAbs }

/-- Projection observing the number of console sinks. -/
def consoleCountOf : Except Err GetLoggerResult → Option Nat :=
  fun x =>
    match x with
    | .ok r => some (r.logger.handlers.countP (fun h => h.isConsole))
    | .error _ => none

/-- Projection observing the number of file sinks. -/
def fileCountOf : Except Err GetLoggerResult → Option Nat :=
  fun x =>
    match x with
    | .ok r => some (r.logger.handlers.countP (fun h => h.isFileSink))
    | .error _ => none

theorem get_logger_path_resolution_witness :
    consoleCountOf (get_logger fsBare modBare cfgDebug (fun _ => freshLogger)
      0 "x" argsWithPath) = some 1
    ∧ fileCountOf (get_logger fsBare modBare cfgDebug (fun _ => freshLogger)
      0 "x" argsWithPath) = some 0
    ∧ get_logger fsBare modBare cfgDebug (fun _ => freshLogger) 0 "y"
        argsNone = .error Err.projectRootNotFound := by
  obtain ⟨r, hok, hfs, hcc, hfc⟩ :=
    (get_logger_path_resolution fsBare modBare cfgDebug (fun _ => freshLogger)
      0 "x" argsWithPath DEBUG true false "fmt" "dt" pAbs
      rfl rfl rfl rfl rfl).1 rfl rfl
  refine ⟨?_, ?_, ?_⟩
  · rw [hok]
    simp only [consoleCountOf]
    rw [hcc]
    rfl
  · rw [hok]
    simp only [fileCountOf]
    rw [hfc]
    rfl
  · exact (get_logger_path_resolution fsBare modBare cfgDebug
      (fun _ => freshLogger) 0 "y" argsNone DEBUG true false "fmt" "dt" pAbs
      rfl rfl rfl rfl rfl).2
      (fun q hq2 => Option.noConfusion hq2) find_fsBare

/-! ### C8 — explicit arguments vs config fallback -/

theorem pyOrNat_some_pos (l : Nat) (x : Option Nat) (k : String) (h : l ≠ 0) :
    pyOrNat (some l) x k = .ok l := by
  show (if (l != 0) = true then Except.ok l else getRequired x k) =
    Except.ok l
  rw [if_pos (by simpa using h)]

theorem pyOrStr_some_ne (s : String) (x : Option String) (k : String)
    (h : s ≠ "") : pyOrStr (some s) x k = .ok s := by
  show (if (s != "") = true then Except.ok s else getRequired x k) =
    Except.ok s
  rw [if_pos (by simpa using h)]

theorem pyOrPath_some_truthy (p : CfgPath) (fs : FS) (modfile : List String)
    (cp : Option CfgPath) (h : p.truthy = true) :
    pyOrPath (some p) fs modfile cp = .ok (fs, p) := by
  show (if p.truthy = true then Except.ok (fs, p)
        else _get_log_file_path fs modfile cp) = Except.ok (fs, p)
  rw [if_pos h]

/-- C8 (amended): when the caller explicitly supplies `log_to_console` and
`log_to_file` (any boolean, `false` included) and *truthy* values for
`log_level`, `log_format`, `date_format` and `log_file_path`, those supplied
values configure the logger and the configuration is not consulted at all —
the result is identical for any two configurations, and the resolved level is
the supplied one.  (A falsy supplied value — `0` or `""` — is treated as
omitted and falls back to the config value, as the counterexample shows.) -/
theorem get_logger_explicit_args (fs : FS) (modfile : List String)
    (registry : String → Logger) (next : Nat) (name : String)
    (a : GetLoggerArgs) (l : Nat) (b b2 : Bool) (fm dm : String)
    (p : CfgPath) (cfg cfg2 : Config)
    (h1 : a.log_level = some l) (h2 : l ≠ 0)
    (h3 : a.log_to_console = some b) (h4 : a.log_to_file = some b2)
    (h5 : a.log_format = some fm) (h6 : fm ≠ "")
    (h7 : a.date_format = some dm) (h8 : dm ≠ "")
    (h9 : a.log_file_path = some p) (h10 : p.truthy = true) :
    get_logger fs modfile cfg registry next name a =
      get_logger fs modfile cfg2 registry next name a
    ∧ levelOf (get_logger fs modfile cfg registry next name a) = some l := by
  have hok1 := get_logger_eval fs modfile cfg registry next name a
    l b b2 fm dm fs p
    (by rw [h1]; exact pyOrNat_some_pos l cfg.log_level "log_level" h2)
    (by rw [h3]; rfl)
    (by rw [h4]; rfl)
    (by rw [h5]; exact pyOrStr_some_ne fm cfg.log_format "log_format" h6)
    (by rw [h7]; exact pyOrStr_some_ne dm cfg.date_format "date_format" h8)
    (by rw [h9]; exact pyOrPath_some_truthy p fs modfile cfg.log_file_path h10)
  have hok2 := get_logger_eval fs modfile cfg2 registry next name a
    l b b2 fm dm fs p
    (by rw [h1]; exact pyOrNat_some_pos l cfg2.log_level "log_level" h2)
    (by rw [h3]; rfl)
    (by rw [h4]; rfl)
    (by rw [h5]; exact pyOrStr_some_ne fm cfg2.log_format "log_format" h6)
    (by rw [h7]; exact pyOrStr_some_ne dm cfg2.date_format "date_format" h8)
    (by rw [h9]; exact pyOrPath_some_truthy p fs modfile cfg2.log_file_path h10)
  constructor
  · rw [hok1, hok2]
  · rw [hok1]
    simp only [levelOf]
    exact congrArg some
      (configure_handlers_level (registry name) next l b b2 fm dm p)

/-- A complete configuration at `INFO` with console only and an absolute
configured `log_file_path`. -/
def cfgInfo : Config :=
  { log_level := some INFO, log_to_console := some true,
    log_to_file := some false, log_format := some "fmt",
    date_format := some "dt", log_file_path := some pAbs }

/-- All arguments supplied explicitly, level `30`. -/
def argsFull : GetLoggerArgs :=
  { log_level := some 30, log_to_console := some false,
    log_to_file := some false, log_format := some "F",
    date_format := some "D", log_file_path := some pAbs }

theorem get_logger_explicit_args_witness :
    get_logger fsBare modBare cfgDebug (fun _ => freshLogger) 0 "x" argsFull =
      get_logger fsBare modBare cfgInfo (fun _ => freshLogger) 0 "x" argsFull
    ∧ levelOf (get_logger fsBare modBare cfgDebug (fun _ => freshLogger) 0 "x"
        argsFull) = some 30 :=
  get_logger_explicit_args fsBare modBare (fun _ => freshLogger) 0 "x"
    argsFull 30 false false "F" "D" pAbs cfgDebug cfgInfo
    rfl (by decide) rfl rfl rfl (by decide) rfl (by decide) rfl rfl

/-- Arguments supplying the falsy level `0` (`logging.NOTSET`) explicitly. -/
def argsLevelZero : GetLoggerArgs :=
  { log_level := some 0, log_to_console := none, log_to_file := none,
    log_format := none, date_format := none, log_file_path := none }

/-- C8 counterexample: the caller explicitly supplies `log_level = 0`
(`NOTSET`, falsy), yet the configured level `INFO` is used, because
`log_level or config["log_level"]` discards falsy supplied values. -/
theorem get_logger_falsy_arg_cex :
    argsLevelZero.log_level = some 0
    ∧ levelOf (get_logger fsMini modMini cfgInfo (fun _ => freshLogger) 0 "x"
        argsLevelZero) = some INFO := by
  refine ⟨rfl, ?_⟩
  have hp : pyOrPath argsLevelZero.log_file_path fsMini modMini
      cfgInfo.log_file_path = .ok (fsMini, pAbs) := pyOrPath_none_cfgAbs
  have hok := get_logger_eval fsMini modMini cfgInfo (fun _ => freshLogger)
    0 "x" argsLevelZero INFO true false "fmt" "dt" fsMini pAbs
    rfl rfl rfl rfl rfl hp
  rw [hok]
  simp only [levelOf]
  exact congrArg some
    (configure_handlers_level freshLogger 0 INFO true false "fmt" "dt" pAbs)

/-! ### C10 — initialize_root_logger eager path resolution -/

theorem initialize_root_logger_err (fs : FS) (modfile : List String)
    (cfg : Config) (registry : String → Logger) (next : Nat)
    (l : Nat) (c f : Bool) (fm dm : String) (e : Err)
    (h1 : cfg.log_level = some l) (h2 : cfg.log_to_console = some c)
    (h3 : cfg.log_to_file = some f) (h4 : cfg.log_format = some fm)
    (h5 : cfg.date_format = some dm)
    (hg : _get_log_file_path fs modfile none = .error e) :
    initialize_root_logger fs modfile cfg registry next = .error e := by
  simp only [initialize_root_logger, h1, h2, h3, h4, h5, getRequired, hg]

theorem initialize_root_logger_eval (fs : FS) (modfile : List String)
    (cfg : Config) (registry : String → Logger) (next : Nat)
    (l : Nat) (c f : Bool) (fm dm : String)
    (fs1 : FS) (dpath : CfgPath) (fs2 : FS) (lfp : CfgPath)
    (h1 : cfg.log_level = some l) (h2 : cfg.log_to_console = some c)
    (h3 : cfg.log_to_file = some f) (h4 : cfg.log_format = some fm)
    (h5 : cfg.date_format = some dm)
    (hq1 : _get_log_file_path fs modfile none = .ok (fs1, dpath))
    (hq2 : _get_log_file_path fs1 modfile cfg.log_file_path = .ok (fs2, lfp)) :
    initialize_root_logger fs modfile cfg registry next =
      .ok { fs := fs2
            registry := fun n => if n == "" then
                (_configure_handlers (registry "") next l c f fm dm lfp).1
              else registry n
            nextId := (_configure_handlers (registry "") next l c f fm dm lfp).2
            logger := (_configure_handlers (registry "") next l c f fm dm lfp).1
            initNotice := true } := by
  simp only [initialize_root_logger, h1, h2, h3, h4, h5, getRequired, hq1, hq2]

/-- C10: `initialize_root_logger` evaluates
`config.get("log_file_path", _get_log_file_path())` with the default argument
computed eagerly, so project-root discovery and default log-path computation
run unconditionally: with a well-formed configuration it fails with the
project-root error whenever no ancestor carries the sentinel — even when the
configuration supplies an absolute `log_file_path` and file logging is
disabled — and on success the `<root>/logs` directory exists afterwards. -/
theorem initialize_root_logger_eager (fs : FS) (modfile : List String)
    (cfg : Config) (registry : String → Logger) (next : Nat)
    (l : Nat) (c f : Bool) (fm dm : String)
    (h1 : cfg.log_level = some l) (h2 : cfg.log_to_console = some c)
    (h3 : cfg.log_to_file = some f) (h4 : cfg.log_format = some fm)
    (h5 : cfg.date_format = some dm) :
    (_find_project_root fs modfile = .error Err.projectRootNotFound →
      initialize_root_logger fs modfile cfg registry next =
        .error Err.projectRootNotFound)
    ∧ (∀ root, _find_project_root fs modfile = .ok root →
      ∃ r, initialize_root_logger fs modfile cfg registry next = .ok r
        ∧ r.fs.dirExists (root ++ ["logs"]) = true) := by
  constructor
  · intro hfind
    have hg : _get_log_file_path fs modfile none =
        .error Err.projectRootNotFound := by
      unfold _get_log_file_path
      rw [hfind]
    exact initialize_root_logger_err fs modfile cfg registry next
      l c f fm dm _ h1 h2 h3 h4 h5 hg
  · intro root hfind
    obtain ⟨fs1, hq1, hdir1, _, hfind1⟩ := gflp_none_creates fs modfile root hfind
    obtain ⟨fs2, lfp, hq2⟩ :=
      gflp_ok_of_find fs1 modfile root hfind1 cfg.log_file_path
    have hdir2 : fs2.dirExists (root ++ ["logs"]) = true :=
      gflp_preserves_dirExists fs1 modfile cfg.log_file_path _ hdir1 fs2 lfp hq2
    exact ⟨_, initialize_root_logger_eval fs modfile cfg registry next
      l c f fm dm fs1 _ fs2 lfp h1 h2 h3 h4 h5 hq1 hq2, hdir2⟩

/-- Projection observing whether the `logs` directory exists after a call. -/
def logsDirOf (d : List String) : Except Err GetLoggerResult → Option Bool :=
  fun x =>
    match x with
    | .ok r => some (r.fs.dirExists d)
    | .error _ => none

theorem initialize_root_logger_eager_witness :
    initialize_root_logger fsBare modBare cfgInfo (fun _ => freshLogger) 0 =
      .error Err.projectRootNotFound
    ∧ logsDirOf ["proj", "logs"]
        (initialize_root_logger fsMini modMini cfgInfo (fun _ => freshLogger) 0)
      = some true := by
  constructor
  · exact (initialize_root_logger_eager fsBare modBare cfgInfo
      (fun _ => freshLogger) 0 INFO true false "fmt" "dt"
      rfl rfl rfl rfl rfl).1 find_fsBare
  · obtain ⟨r, hr, hd⟩ := (initialize_root_logger_eager fsMini modMini cfgInfo
      (fun _ => freshLogger) 0 INFO true false "fmt" "dt"
      rfl rfl rfl rfl rfl).2 ["proj"] find_fsMini
    rw [hr]
    simp only [logsDirOf]
    exact congrArg some hd
